import Mathlib

set_option maxRecDepth 10000

/-
Verification of the webhook normalizer, RSVP classifier, webhook verify
endpoint, bulk send loop, and the two divergent copies of the outbound
send helper of the meta-webhook-test repository.

The JavaScript source is shallowly embedded: untyped optional fields
become `Option`, JS string falsiness (`undefined` or `""`) is modelled
explicitly, the two regex groups are modelled as word-boundary keyword
matchers, and the express handlers become pure functions from their
inputs (query params, parsed JSON body, a lookup oracle for the
database, a network oracle for axios) to a result value describing the
HTTP response and the database writes performed.
-/

namespace MetaWebhook

/-- JS `x || dflt` for an optional string: `undefined` and `""` are falsy. -/
def jsOrStr (o : Option String) (dflt : String) : String :=
  match o with
  | some s => if s = "" then dflt else s
  | none => dflt

/-- JS `!x` for an optional string config entry: true when the env var is
unset (`undefined`) or the empty string. -/
def jsFalsyStr (o : Option String) : Bool :=
  match o with
  | none => true
  | some s => s == ""

/-- `messageText.toLowerCase()` on the ASCII fragment relevant to the
keyword patterns; maps `Char.toLower` over the characters. -/
def jsToLower (s : String) : String :=
  ⟨s.data.map Char.toLower⟩

/-- JS regex word character class `\w`, i.e. `[A-Za-z0-9_]`. -/
def isWordChar (c : Char) : Bool :=
  c.isAlphanum || c == '_'

/-- The keyword occurs verbatim at index `i` of the character list. -/
def occursAt (s kw : List Char) (i : Nat) : Bool :=
  (s.drop i).take kw.length == kw

/-- Regex `(^|\b)` before a keyword that starts with a word character:
start of string, or the previous character is not a word character. -/
def wordBoundaryLeft (s : List Char) (i : Nat) : Bool :=
  i == 0 || !(isWordChar (s.getD (i - 1) ' '))

/-- Regex `(\b|$)` after a keyword that ends with a word character:
end of string, or the next character is not a word character. -/
def wordBoundaryRight (s kw : List Char) (i : Nat) : Bool :=
  (i + kw.length == s.length) || !(isWordChar (s.getD (i + kw.length) ' '))

/-- `regex.test`: some keyword occurrence with both boundaries exists. -/
def kwMatches (s kw : List Char) : Bool :=
  (List.range (s.length + 1)).any fun i =>
    occursAt s kw i && wordBoundaryLeft s i && wordBoundaryRight s kw i

/-- One regex alternation group `(^|\b)(kw1|kw2|...)(\b|$)` tested
against the (already lowercased) text. -/
def groupMatches (kws : List String) (t : String) : Bool :=
  kws.any fun kw => kwMatches t.data kw.data

/-- Alternatives of `/(^|\b)(yes|attending|will attend)(\b|$)/`. -/
def confirmedKeywords : List String := ["yes", "attending", "will attend"]

/-- Alternatives of `/(^|\b)(no|not attending|cannot attend)(\b|$)/`. -/
def declinedKeywords : List String := ["no", "not attending", "cannot attend"]

/-- Alternatives of `/(^|\b)(maybe|possibly)(\b|$)/`. -/
def maybeKeywords : List String := ["maybe", "possibly"]

/-- All keywords of the three classifier groups. -/
def allKeywords : List String :=
  confirmedKeywords ++ declinedKeywords ++ maybeKeywords

/-- The classifier outcomes; `pending` is the initial value of
`rsvpStatus` in the handler and survives when no group matches. -/
inductive RsvpOutcome where
  | confirmed
  | declined
  | maybe
  | pending
deriving DecidableEq

/-- The RSVP classifier of the webhook handler: lowercase the text, then
test the confirmed, declined and maybe regex groups in that order. -/
def classify (text : String) : RsvpOutcome :=
  let t := jsToLower text
  if groupMatches confirmedKeywords t then .confirmed
  else if groupMatches declinedKeywords t then .declined
  else if groupMatches maybeKeywords t then .maybe
  else .pending

/-- The string value the handler stores in `rsvpStatus`. -/
def rsvpString : RsvpOutcome → String
  | .confirmed => "confirmed"
  | .declined => "declined"
  | .maybe => "maybe"
  | .pending => "pending"

/-- Does the (non-empty) pattern occur verbatim at index `i`? Used to
model `String.prototype.replace` with a plain-string pattern. -/
def matchesAtL (s pat : List Char) (i : Nat) : Bool :=
  (s.drop i).take pat.length == pat

/-- Index of the leftmost occurrence of the pattern, if any. -/
def findFirstIdx (s pat : List Char) : Option Nat :=
  (List.range (s.length + 1)).find? fun i => matchesAtL s pat i

/-- JS `s.replace(pat, "")` with a string pattern: remove the first
occurrence of `pat`, leave `s` unchanged when `pat` does not occur. -/
def replaceFirstL (s pat : List Char) : List Char :=
  match findFirstIdx s pat with
  | some i => s.take i ++ s.drop (i + pat.length)
  | none => s

/-- String wrapper of `replaceFirstL`. -/
def replaceFirstStr (s pat : String) : String :=
  ⟨replaceFirstL s.data pat.data⟩

/-- `WHATSAPP_API_URL` constant of `api/index.js` (the HTTP entrypoint). -/
def WHATSAPP_API_URL_app : String := "https://graph.facebook.com/v18.0"

/-- `WHATSAPP_API_URL` constant of the shared WhatsApp module. -/
def WHATSAPP_API_URL_module : String := "https://graph.facebook.com/v22.0"

/-- Phone cleaning in `api/index.js`:
`to.replace("whatsapp:", "").replace("+", "")`. -/
def cleanPhoneNumberApp («to» : String) : String :=
  replaceFirstStr (replaceFirstStr «to» "whatsapp:") "+"

/-- Phone cleaning in the shared module: `to.replace("whatsapp:", "")`. -/
def cleanPhoneNumberModule («to» : String) : String :=
  replaceFirstStr «to» "whatsapp:"

/-- The environment-derived WhatsApp configuration (`getWhatsAppConfig`);
each env var is `none` when unset. -/
structure WaConfig where
  phoneNumberId : Option String
  accessToken : Option String
  wabaId : Option String
  webhookVerifyToken : Option String
deriving DecidableEq

/-- One `{ id }` element of `whatsappResponse.messages`. -/
structure WaMsgRef where
  id : String
deriving DecidableEq

/-- The provider response body, as far as the code reads it
(`whatsappResponse.messages?.[0]?.id`). -/
structure WaApiResponse where
  messages : Option (List WaMsgRef)
deriving DecidableEq

/-- `whatsappResponse.messages?.[0]?.id`. -/
def waMessageId (r : WaApiResponse) : Option String :=
  ((r.messages.getD []).head?).map WaMsgRef.id

/-- The axios POST the send helpers issue, as far as the claims need it:
target URL, cleaned destination, and message body. -/
structure ApiRequest where
  url : String
  «to» : String
  body : String
deriving DecidableEq

/-- How a send helper fails: the thrown configuration `Error`, or a
rethrown axios/provider error. -/
inductive SendErr where
  | configError (message : String)
  | apiError (message : String)
deriving DecidableEq

/-- `sendTextMessage` of `api/index.js`. `net` is the axios oracle; the
second component of the result lists the network requests performed. -/
def sendTextMessageApp (net : ApiRequest → Except String WaApiResponse)
    (cfg : WaConfig) («to» message : String) :
    Except SendErr WaApiResponse × List ApiRequest :=
  if jsFalsyStr cfg.phoneNumberId || jsFalsyStr cfg.accessToken then
    (.error (.configError
      "WhatsApp configuration missing: phoneNumberId or accessToken"), [])
  else
    let cleanPhoneNumber := cleanPhoneNumberApp «to»
    let req : ApiRequest :=
      { url := WHATSAPP_API_URL_app ++ "/" ++ cfg.phoneNumberId.getD ""
          ++ "/messages"
        «to» := cleanPhoneNumber
        body := message }
    match net req with
    | .ok resp => (.ok resp, [req])
    | .error e => (.error (.apiError e), [req])

/-- `sendTextMessage` of the shared WhatsApp module: same config check,
but the newer API version and no `"+"` removal. -/
def sendTextMessageModule (net : ApiRequest → Except String WaApiResponse)
    (cfg : WaConfig) («to» message : String) :
    Except SendErr WaApiResponse × List ApiRequest :=
  if jsFalsyStr cfg.phoneNumberId || jsFalsyStr cfg.accessToken then
    (.error (.configError
      "WhatsApp configuration missing: phoneNumberId or accessToken"), [])
  else
    let cleanPhoneNumber := cleanPhoneNumberModule «to»
    let req : ApiRequest :=
      { url := WHATSAPP_API_URL_module ++ "/" ++ cfg.phoneNumberId.getD ""
          ++ "/messages"
        «to» := cleanPhoneNumber
        body := message }
    match net req with
    | .ok resp => (.ok resp, [req])
    | .error e => (.error (.apiError e), [req])

/-- `message.text` object of a text message. -/
structure WaText where
  body : String
deriving DecidableEq

/-- One element of `value.messages`. `text` is absent for non-text
message types. -/
structure WaMessage where
  id : String
  «from» : String
  timestamp : String
  type : String
  text : Option WaText
deriving DecidableEq

/-- `contact.profile`; `name` may be absent. -/
structure WaProfile where
  name : Option String
deriving DecidableEq

/-- One element of `value.contacts`. -/
structure WaContact where
  profile : Option WaProfile
  wa_id : Option String
deriving DecidableEq

/-- One element of `value.statuses`; `conversation` and `pricing` are
opaque metadata, `errors` holds provider reason codes. -/
structure WaStatus where
  id : String
  status : String
  timestamp : String
  conversation : Option String
  pricing : Option String
  errors : Option (List String)
deriving DecidableEq

/-- `entry[i].changes[j].value`. -/
structure WaValue where
  messages : Option (List WaMessage)
  statuses : Option (List WaStatus)
  contacts : Option (List WaContact)
deriving DecidableEq

/-- One element of `body.entry[i].changes`. -/
structure WaChange where
  value : Option WaValue
deriving DecidableEq

/-- One element of `body.entry`. -/
structure WaEntry where
  changes : Option (List WaChange)
deriving DecidableEq

/-- The raw webhook JSON body; every link of the nested path may be
absent. -/
structure WaBody where
  entry : Option (List WaEntry)
deriving DecidableEq

/-- The optional-chain `body.entry?.[0]?.changes?.[0]?.value` shared by
the handler and `parseWebhookPayload`; any missing link yields `none`. -/
def getValue (body : WaBody) : Option WaValue :=
  match body.entry with
  | none => none
  | some es =>
    match es.head? with
    | none => none
    | some e =>
      match e.changes with
      | none => none
      | some cs =>
        match cs.head? with
        | none => none
        | some c => c.value

/-- The normalized inbound-message record `parseWebhookPayload` builds. -/
structure ParsedMessage where
  messageId : String
  «from» : String
  timestamp : String
  type : String
  text : String
  contactName : String
  waId : String
deriving DecidableEq

/-- The message half of `parseWebhookPayload`, given a present `value`.
`messages = some []` is JS-truthy, so the code reaches
`value.messages[0]` there, `message.id` throws on `undefined`, and the
surrounding `try` turns that into `null`. -/
def parseFromValue (value : WaValue) : Option ParsedMessage :=
  match value.messages with
  | none => none
  | some [] => none
  | some (message :: _) =>
    let contact := (value.contacts.getD []).head?
    some
      { messageId := message.id
        «from» := message.«from»
        timestamp := message.timestamp
        type := message.type
        text := jsOrStr (message.text.map WaText.body) ""
        contactName :=
          jsOrStr (contact.bind fun c => c.profile.bind WaProfile.name) ""
        waId := jsOrStr (contact.bind WaContact.wa_id) message.«from» }

/-- `parseWebhookPayload` of the shared WhatsApp module. -/
def parseWebhookPayload (body : WaBody) : Option ParsedMessage :=
  match getValue body with
  | none => none
  | some value => parseFromValue value

/-- The invitee row the handler reads (`id`, `additional_info`; the other
columns do not influence control flow). -/
structure Invitee where
  id : String
  additional_info : Option String
deriving DecidableEq

/-- A field of the per-status console record the statuses loop builds
(`id`, `status`, `timestamp`, `conversation`, `pricing`, `errors`). -/
structure StatusLog where
  id : String
  status : String
  timestamp : String
  conversation : Option String
  pricing : Option String
  errors : Option (List String)
deriving DecidableEq

/-- The record logged for one entry of `value.statuses`. -/
def mkStatusLog (s : WaStatus) : StatusLog :=
  { id := s.id
    status := s.status
    timestamp := s.timestamp
    conversation := s.conversation
    pricing := s.pricing
    errors := s.errors }

/-- The records produced by the `for (const s of value.statuses)` loop. -/
def statusLogsOf (value : Option WaValue) : List StatusLog :=
  match value with
  | none => []
  | some v => (v.statuses.getD []).map mkStatusLog

/-- JS truthiness of `value?.statuses?.length`. -/
def statusesNonempty (value : Option WaValue) : Bool :=
  match value with
  | none => false
  | some v =>
    match v.statuses with
    | none => false
    | some l => !l.isEmpty

/-- `additional_info` written by the invitees update:
`invitee.additional_info ? old + "\n" + now + ": " + text : now + ": " + text`
(`""` is falsy). -/
def appendInfo (old : Option String) (now text : String) : String :=
  match old with
  | some o =>
    if o = "" then now ++ ": " ++ text
    else o ++ "\n" ++ now ++ ": " ++ text
  | none => now ++ ": " ++ text

/-- A supabase write issued by the webhook POST handler. The
`message_history` insert also stores constant columns
(`status: "delivered"`, `response_received: true`, timestamps); only the
varying columns are modelled. -/
inductive DbAction where
  | inviteesUpdate (inviteeId : String) (rsvp_status : String)
      (additional_info : String) (updated_at : String)
  | messageHistoryInsert (inviteeId : String) (message_body : String)
      (whatsapp_message_id : String)
deriving DecidableEq

/-- Outcome of the webhook POST handler: the HTTP response it sends,
plus the writes performed. `serverError` is the catch branch
(500 "Error processing webhook") reached when the fall-through code
dereferences an absent `value.messages`. -/
inductive WebhookResult where
  | badRequest
  | okStatuses (logs : List StatusLog)
  | okMessage (actions : List DbAction)
  | serverError
deriving DecidableEq

/-- The body of the webhook POST handler after `value` has been
computed. Mirrors the control flow of `api/index.js` lines 193-265:
the statuses branch only returns when `!value || !value.messages` AND
`value?.statuses?.length`; otherwise execution falls through to
`value.messages[0]`, which throws when `value` or `value.messages` is
absent or `value.messages` is the empty array. -/
def webhookValueStep (lookup : String → Option Invitee) (now : String)
    (value : Option WaValue) : WebhookResult :=
  let noMessages : Bool :=
    match value with
    | none => true
    | some v => v.messages.isNone
  if noMessages && statusesNonempty value then
    .okStatuses (statusLogsOf value)
  else
    match value with
    | none => .serverError
    | some v =>
      match v.messages with
      | none => .serverError
      | some [] => .serverError
      | some (message :: _) =>
        let messageText := jsOrStr (message.text.map WaText.body) ""
        match lookup message.«from» with
        | none => .okMessage []
        | some invitee =>
          let rsvpStatus := rsvpString (classify messageText)
          let updates :=
            if rsvpStatus ≠ "pending" then
              [DbAction.inviteesUpdate invitee.id rsvpStatus
                (appendInfo invitee.additional_info now messageText) now]
            else []
          .okMessage
            (updates ++
              [DbAction.messageHistoryInsert invitee.id messageText
                message.id])

/-- The webhook POST handler. `lookup` is the supabase invitees query
(`none` for both a lookup error and no matching row); `now` the request
timestamp; `body` the parsed JSON body (`none` for an empty body). -/
def webhookPost (lookup : String → Option Invitee) (now : String)
    (body : Option WaBody) : WebhookResult :=
  match body with
  | none => .badRequest
  | some b => webhookValueStep lookup now (getValue b)

/-- Response of the webhook GET verification endpoint. -/
inductive VerifyResponse where
  | ok (body : Option String)
  | forbidden
deriving DecidableEq

/-- The GET `/api/webhook-response` handler: echo `hub.challenge` with
200 iff `hub.mode === "subscribe"` and
`hub.verify_token === config.webhookVerifyToken` (JS `===`: two absent
values compare equal); otherwise 403 "Forbidden". -/
def webhookVerify (cfg : WaConfig) (mode token challenge : Option String) :
    VerifyResponse :=
  if mode = some "subscribe" ∧ token = cfg.webhookVerifyToken then
    .ok challenge
  else .forbidden

/-- One element of the `messages` array of a bulk-send request body. -/
structure BulkMsg where
  «to» : String
  body : String
  inviteeId : Option String
  templateId : Option String
deriving DecidableEq

/-- One element of the `results` array of the bulk-send response. -/
structure BulkResultEntry where
  «to» : String
  whatsappMessageId : Option String
  messageHistoryId : Option String
deriving DecidableEq

/-- One element of the `errors` array of the bulk-send response. -/
structure BulkErrorEntry where
  «to» : String
  error : String
deriving DecidableEq

/-- The bulk-send JSON response together with its HTTP status. -/
structure BulkResponse where
  status : Nat
  success : Bool
  results : List BulkResultEntry
  errors : List BulkErrorEntry
deriving DecidableEq

/-- One iteration of the `for (const msgData of messages)` loop: the
inner try/catch appends to `results` on success and to `errors` on a
thrown send error. `send` is the `sendTextMessage` outcome oracle, `db`
the `message_history` insert oracle (its returned row id; a db error is
only logged and never throws). -/
def bulkStep (send : BulkMsg → Except String WaApiResponse)
    (db : BulkMsg → Option String)
    (acc : List BulkResultEntry × List BulkErrorEntry)
    (msgData : BulkMsg) :
    List BulkResultEntry × List BulkErrorEntry :=
  match send msgData with
  | .ok whatsappResponse =>
    (acc.1 ++
      [{ «to» := msgData.«to»
         whatsappMessageId := waMessageId whatsappResponse
         messageHistoryId := db msgData }], acc.2)
  | .error e =>
    (acc.1, acc.2 ++ [{ «to» := msgData.«to», error := e }])

/-- The `results` entry a message contributes, if its send succeeds. -/
def bulkResultOf (send : BulkMsg → Except String WaApiResponse)
    (db : BulkMsg → Option String) (m : BulkMsg) : Option BulkResultEntry :=
  match send m with
  | .ok r =>
    some
      { «to» := m.«to»
        whatsappMessageId := waMessageId r
        messageHistoryId := db m }
  | .error _ => none

/-- The `errors` entry a message contributes, if its send fails. -/
def bulkErrorOf (send : BulkMsg → Except String WaApiResponse)
    (m : BulkMsg) : Option BulkErrorEntry :=
  match send m with
  | .error e => some { «to» := m.«to», error := e }
  | .ok _ => none

/-- The POST `/api/send-bulk-messages` handler on a well-formed
`messages` list: loop over the messages, collect per-message successes
and errors, then respond `res.json({success: true, results, errors})`
(HTTP 200). -/
def sendBulkMessages (send : BulkMsg → Except String WaApiResponse)
    (db : BulkMsg → Option String) (messages : List BulkMsg) :
    BulkResponse :=
  let res := messages.foldl (bulkStep send db) ([], [])
  { status := 200, success := true, results := res.1, errors := res.2 }

/-- Is the Except value an error? (The JS send rejecting.) -/
def exceptIsError {ε α : Type} : Except ε α → Bool
  | .error _ => true
  | .ok _ => false

/-- Fixture: a status entry as delivered by the provider. -/
def stA : WaStatus :=
  { id := "wamid.A"
    status := "delivered"
    timestamp := "1700000001"
    conversation := some "conv1"
    pricing := some "CBP"
    errors := none }

/-- Fixture: a failed-status entry with a reason code. -/
def stB : WaStatus :=
  { id := "wamid.B"
    status := "failed"
    timestamp := "1700000002"
    conversation := none
    pricing := none
    errors := some ["131026"] }

/-- Fixture: a `value` with two statuses and no `messages` key. -/
def statusOnlyValue : WaValue :=
  { messages := none, statuses := some [stA, stB], contacts := none }

/-- Fixture: webhook body wrapping `statusOnlyValue`. -/
def statusOnlyBody : WaBody :=
  { entry := some [{ changes := some [{ value := some statusOnlyValue }] }] }

/-- Fixture: a `value` with `messages: []` (JS-truthy empty array) and
two statuses. -/
def emptyMessagesValue : WaValue :=
  { messages := some [], statuses := some [stA, stB], contacts := none }

/-- Fixture: webhook body wrapping `emptyMessagesValue`. -/
def emptyMessagesBody : WaBody :=
  { entry := some [{ changes := some [{ value := some emptyMessagesValue }] }] }

/-- Fixture: an inbound text message. -/
def textMsg : WaMessage :=
  { id := "wamid.T"
    «from» := "972500000002"
    timestamp := "1700000004"
    type := "text"
    text := some { body := "Yes I will be there" } }

/-- Fixture: a `value` carrying `textMsg`. -/
def textValue : WaValue :=
  { messages := some [textMsg], statuses := none, contacts := none }

/-- Fixture: webhook body wrapping `textValue`. -/
def textBody : WaBody :=
  { entry := some [{ changes := some [{ value := some textValue }] }] }

/-- Fixture: an inbound message whose text classifies as `pending`. -/
def pendingMsg : WaMessage :=
  { id := "wamid.P"
    «from» := "972500000001"
    timestamp := "1700000003"
    type := "text"
    text := some { body := "see you soon" } }

/-- Fixture: a `value` carrying `pendingMsg`. -/
def pendingValue : WaValue :=
  { messages := some [pendingMsg]
    statuses := none
    contacts := some [{ profile := some { name := some "Dana" }
                        wa_id := some "972500000001" }] }

/-- Fixture: webhook body wrapping `pendingValue`. -/
def pendingBody : WaBody :=
  { entry := some [{ changes := some [{ value := some pendingValue }] }] }

/-- Fixture: the invitee row matched by `pendingMsg.from`. -/
def inviteeFix : Invitee :=
  { id := "42", additional_info := some "prior note" }

/-- Fixture: invitees lookup returning `inviteeFix` for the pending
sender's phone number. -/
def lookupFix : String → Option Invitee :=
  fun phone => if phone = "972500000001" then some inviteeFix else none

/-- Fixture: bulk message whose send succeeds. -/
def bulkGood1 : BulkMsg :=
  { «to» := "whatsapp:+15550000001", body := "hello"
    inviteeId := none, templateId := none }

/-- Fixture: bulk message whose send fails. -/
def bulkBad : BulkMsg :=
  { «to» := "whatsapp:+15550000002", body := "hello"
    inviteeId := some "2", templateId := none }

/-- Fixture: a second bulk message whose send succeeds, placed after the
failing one. -/
def bulkGood2 : BulkMsg :=
  { «to» := "whatsapp:+15550000003", body := "hello"
    inviteeId := none, templateId := none }

/-- Fixture: send oracle failing exactly on `bulkBad`. -/
def sendFix : BulkMsg → Except String WaApiResponse :=
  fun m =>
    if m.«to» = bulkBad.«to» then
      .error "Request failed with status code 401"
    else .ok { messages := some [{ id := "wamid.OK" }] }

/-- Fixture: db insert oracle returning a fixed row id. -/
def dbFix : BulkMsg → Option String := fun _ => some "101"

/-- Fixture: the bulk request's messages list, failure in the middle. -/
def bulkFixMessages : List BulkMsg := [bulkGood1, bulkBad, bulkGood2]

/-- Fixture: a configuration with every env var unset. -/
def cfgNone : WaConfig :=
  { phoneNumberId := none, accessToken := none, wabaId := none,
    webhookVerifyToken := none }

/-- Fixture: a network oracle; with the config missing it must never be
consulted. -/
def netFix : ApiRequest → Except String WaApiResponse :=
  fun _ => .error "unreachable"

/-- Helper: every classifier keyword is a non-empty string. -/
theorem allKeywords_data_ne_nil : ∀ kw ∈ allKeywords, kw.data ≠ [] := by
  decide

/-- Helper: a keyword pattern cannot match when every occurrence of the
keyword inside the text fails one of the word boundaries. -/
theorem kwMatches_eq_false (s kw : List Char) (hne : kw ≠ [])
    (h : ∀ i, i < s.length → occursAt s kw i = true →
      wordBoundaryLeft s i = false ∨ wordBoundaryRight s kw i = false) :
    kwMatches s kw = false := by
  cases hk : kwMatches s kw with
  | false => rfl
  | true =>
    exfalso
    unfold kwMatches at hk
    rw [List.any_eq_true] at hk
    obtain ⟨i, hmem, hp⟩ := hk
    rw [List.mem_range] at hmem
    rw [Bool.and_eq_true, Bool.and_eq_true] at hp
    obtain ⟨⟨hocc, hl⟩, hr⟩ := hp
    rcases Nat.lt_succ_iff_lt_or_eq.mp hmem with hlt | heq
    · rcases h i hlt hocc with hb | hb
      · rw [hb] at hl
        exact Bool.false_ne_true hl
      · rw [hb] at hr
        exact Bool.false_ne_true hr
    · subst heq
      unfold occursAt at hocc
      rw [List.drop_length, List.take_nil] at hocc
      exact hne (eq_of_beq hocc).symm

/-- Helper: an alternation group cannot match when none of its
keyword patterns matches. -/
theorem groupMatches_eq_false (kws : List String) (t : String)
    (h : ∀ kw ∈ kws, kwMatches t.data kw.data = false) :
    groupMatches kws t = false := by
  cases hg : groupMatches kws t with
  | false => rfl
  | true =>
    exfalso
    unfold groupMatches at hg
    rw [List.any_eq_true] at hg
    obtain ⟨kw, hkw, hp⟩ := hg
    rw [h kw hkw] at hp
    exact Bool.false_ne_true hp

/-- C3: any input whose lowercased text matches both the confirmed and
the declined keyword group (keywords on word boundaries) classifies as
`confirmed`, because the confirmed group is tested first. -/
theorem classify_confirm_priority (text : String)
    (hc : groupMatches confirmedKeywords (jsToLower text) = true)
    (hd : groupMatches declinedKeywords (jsToLower text) = true) :
    classify text = .confirmed := by
  simp [classify, hc]

/-- Witness for C3 at "yes but no": both groups match, and the
classifier returns `confirmed`. -/
theorem classify_confirm_priority_witness :
    groupMatches confirmedKeywords (jsToLower "yes but no") = true ∧
    groupMatches declinedKeywords (jsToLower "yes but no") = true ∧
    classify "yes but no" = .confirmed :=
  ⟨by decide, by decide,
    classify_confirm_priority "yes but no" (by decide) (by decide)⟩

/-- C4: the keyword patterns only match on word boundaries: whenever
every occurrence of every classifier keyword inside the lowercased text
fails a word boundary, no group matches and the outcome is `pending`. -/
theorem classify_word_boundary_only (text : String)
    (h : ∀ kw ∈ allKeywords, ∀ i, i < (jsToLower text).data.length →
      occursAt (jsToLower text).data kw.data i = true →
      wordBoundaryLeft (jsToLower text).data i = false ∨
      wordBoundaryRight (jsToLower text).data kw.data i = false) :
    classify text = .pending := by
  have hg : ∀ kws : List String, (∀ kw ∈ kws, kw ∈ allKeywords) →
      groupMatches kws (jsToLower text) = false := by
    intro kws hsub
    apply groupMatches_eq_false
    intro kw hkw
    apply kwMatches_eq_false
    · exact allKeywords_data_ne_nil kw (hsub kw hkw)
    · exact h kw (hsub kw hkw)
  simp [classify, hg confirmedKeywords (by decide),
    hg declinedKeywords (by decide), hg maybeKeywords (by decide)]

/-- Witness for C4 at "yesterday is a day": the keyword "yes" does occur
in the text (as a proper prefix of "yesterday"), every keyword
occurrence fails a word boundary, and the classifier returns
`pending`. -/
theorem classify_word_boundary_only_witness :
    occursAt (jsToLower "yesterday is a day").data "yes".data 0 = true ∧
    (∀ kw ∈ allKeywords, ∀ i,
      i < (jsToLower "yesterday is a day").data.length →
      occursAt (jsToLower "yesterday is a day").data kw.data i = true →
      wordBoundaryLeft (jsToLower "yesterday is a day").data i = false ∨
      wordBoundaryRight (jsToLower "yesterday is a day").data kw.data i
        = false) ∧
    classify "yesterday is a day" = .pending :=
  ⟨by decide, by decide,
    classify_word_boundary_only "yesterday is a day" (by decide)⟩

/-- C1: on a payload with no `entry` key the shared normalizer
`parseWebhookPayload` does return Unrecognized (`none`) without raising,
but the webhook POST handler falls through its `!value || !value.messages`
guard (the statuses sub-branch does not fire and nothing returns),
dereferences `value.messages` on `undefined`, and its catch branch
responds 500: the handler does reach an error branch. -/
theorem webhook_missing_entry_error_path :
    parseWebhookPayload { entry := none } = none ∧
    webhookPost (fun _ => none) "2026-01-01 00:00:00"
      (some { entry := none }) = .serverError :=
  ⟨rfl, rfl⟩

/-- C2 counterexample: `value.messages = []` has no non-empty `messages`
field and `value.statuses` has two entries, yet the handler does not
produce the two status records: `[]` is JS-truthy, so the
`!value || !value.messages` guard fails, the statuses branch is skipped,
and `value.messages[0]` is `undefined`, whose `.text` access throws —
the response is the 500 catch branch with zero status updates. -/
theorem webhook_statuses_empty_messages_cex :
    webhookPost (fun _ => none) "2026-01-01 00:00:00"
      (some emptyMessagesBody) = .serverError ∧
    webhookPost (fun _ => none) "2026-01-01 00:00:00"
      (some emptyMessagesBody) ≠
      .okStatuses ([stA, stB].map mkStatusLog) :=
  ⟨rfl, by decide⟩

/-- C2 (amended): when `value.messages` is absent (not merely empty) and
`value.statuses` is a non-empty sequence, the handler produces exactly
one status record per entry of `value.statuses`, preserving `status`,
`timestamp`, `conversation`, `pricing` and `errors`, and produces no
inbound-message processing. -/
theorem webhook_statuses_mapped (lookup : String → Option Invitee)
    (now : String) (b : WaBody) (v : WaValue) (ss : List WaStatus)
    (hv : getValue b = some v) (hm : v.messages = none)
    (hs : v.statuses = some ss) (hne : ss ≠ []) :
    webhookPost lookup now (some b) = .okStatuses (ss.map mkStatusLog) ∧
    (ss.map mkStatusLog).length = ss.length ∧
    ∀ s ∈ ss, mkStatusLog s =
      { id := s.id, status := s.status, timestamp := s.timestamp,
        conversation := s.conversation, pricing := s.pricing,
        errors := s.errors } := by
  refine ⟨?_, by simp, by intro s _; rfl⟩
  show webhookValueStep lookup now (getValue b) = _
  rw [hv]
  cases ss with
  | nil => exact absurd rfl hne
  | cons s0 st =>
    simp [webhookValueStep, statusesNonempty, statusLogsOf, hm, hs]

/-- Witness for C2 at a payload with two status entries and no
`messages` key: exactly two status records come back. -/
theorem webhook_statuses_mapped_witness :
    getValue statusOnlyBody = some statusOnlyValue ∧
    statusOnlyValue.messages = none ∧
    statusOnlyValue.statuses = some [stA, stB] ∧
    ([stA, stB] : List WaStatus) ≠ [] ∧
    (webhookPost (fun _ => none) "2026-01-01 00:00:00"
        (some statusOnlyBody) = .okStatuses ([stA, stB].map mkStatusLog) ∧
      (([stA, stB] : List WaStatus).map mkStatusLog).length
        = ([stA, stB] : List WaStatus).length ∧
      ∀ s ∈ ([stA, stB] : List WaStatus), mkStatusLog s =
        { id := s.id, status := s.status, timestamp := s.timestamp,
          conversation := s.conversation, pricing := s.pricing,
          errors := s.errors }) :=
  ⟨rfl, rfl, rfl, by decide,
    webhook_statuses_mapped (fun _ => none) "2026-01-01 00:00:00"
      statusOnlyBody statusOnlyValue [stA, stB] rfl rfl rfl (by decide)⟩

/-- C5: on a well-formed message payload the normalizer produces an
inbound-message record whose `text` is `messages[0].text.body` verbatim
when `text` is present, and the empty string, without error, when the
message is of a non-text type (`text` absent). -/
theorem parseWebhookPayload_text_extraction (b : WaBody) (v : WaValue)
    (m : WaMessage) (rest : List WaMessage)
    (hv : getValue b = some v) (hm : v.messages = some (m :: rest)) :
    ∃ p, parseWebhookPayload b = some p ∧
      (∀ t, m.text = some t → p.text = t.body) ∧
      (m.text = none → p.text = "") := by
  have hp : parseWebhookPayload b = parseFromValue v := by
    unfold parseWebhookPayload
    rw [hv]
  rw [hp]
  unfold parseFromValue
  rw [hm]
  refine ⟨_, rfl, ?_, ?_⟩
  · intro t ht
    by_cases hb : t.body = ""
    · simp [ht, jsOrStr, hb]
    · simp [ht, jsOrStr, hb]
  · intro ht
    simp [ht, jsOrStr]

/-- Witness for C5 at a text-message payload: the extracted text is the
original body, verbatim. -/
theorem parseWebhookPayload_text_extraction_witness :
    getValue textBody = some textValue ∧
    textValue.messages = some (textMsg :: []) ∧
    (∃ p, parseWebhookPayload textBody = some p ∧
      (∀ t, textMsg.text = some t → p.text = t.body) ∧
      (textMsg.text = none → p.text = "")) :=
  ⟨rfl, rfl,
    parseWebhookPayload_text_extraction textBody textValue textMsg [] rfl rfl⟩

/-- C6: the GET verification endpoint answers 200 with the
`hub.challenge` body exactly when `hub.mode` is "subscribe" and
`hub.verify_token` equals the configured secret, and 403 in every other
case. -/
theorem webhookVerify_challenge_iff (cfg : WaConfig)
    (mode token challenge : Option String) :
    (webhookVerify cfg mode token challenge = .ok challenge ↔
      (mode = some "subscribe" ∧ token = cfg.webhookVerifyToken)) ∧
    (webhookVerify cfg mode token challenge = .forbidden ↔
      ¬(mode = some "subscribe" ∧ token = cfg.webhookVerifyToken)) := by
  by_cases h : mode = some "subscribe" ∧ token = cfg.webhookVerifyToken
  · simp [webhookVerify, h]
  · simp [webhookVerify, h]

/-- C10: when the inbound text classifies as `pending`, the handler
issues no invitees update at all — the only write is the
`message_history` insert; the invitee row (rsvp_status,
additional_info, updated_at) is untouched. -/
theorem webhook_pending_no_invitee_update
    (lookup : String → Option Invitee) (now : String) (b : WaBody)
    (v : WaValue) (m : WaMessage) (rest : List WaMessage)
    (invitee : Invitee)
    (hv : getValue b = some v) (hm : v.messages = some (m :: rest))
    (hl : lookup m.«from» = some invitee)
    (hp : classify (jsOrStr (m.text.map WaText.body) "") = .pending) :
    webhookPost lookup now (some b) =
      .okMessage [DbAction.messageHistoryInsert invitee.id
        (jsOrStr (m.text.map WaText.body) "") m.id] := by
  show webhookValueStep lookup now (getValue b) = _
  rw [hv]
  simp [webhookValueStep, statusesNonempty, hm, hl, hp, rsvpString]

/-- Witness for C10 at a payload whose text ("see you soon") matches no
keyword group: the handler writes only the message-history row. -/
theorem webhook_pending_no_invitee_update_witness :
    getValue pendingBody = some pendingValue ∧
    pendingValue.messages = some (pendingMsg :: []) ∧
    lookupFix pendingMsg.«from» = some inviteeFix ∧
    classify (jsOrStr (pendingMsg.text.map WaText.body) "") = .pending ∧
    webhookPost lookupFix "2026-01-01 00:00:00" (some pendingBody) =
      .okMessage [DbAction.messageHistoryInsert inviteeFix.id
        (jsOrStr (pendingMsg.text.map WaText.body) "") pendingMsg.id] :=
  ⟨rfl, rfl, by decide, by decide,
    webhook_pending_no_invitee_update lookupFix "2026-01-01 00:00:00"
      pendingBody pendingValue pendingMsg [] inviteeFix rfl rfl
      (by decide) (by decide)⟩

/-- Helper: the bulk loop accumulates exactly the per-message success and
error entries, in order, after any initial accumulator contents. -/
theorem bulk_foldl_spec (send : BulkMsg → Except String WaApiResponse)
    (db : BulkMsg → Option String) (l : List BulkMsg)
    (rs : List BulkResultEntry) (es : List BulkErrorEntry) :
    l.foldl (bulkStep send db) (rs, es) =
      (rs ++ l.filterMap (bulkResultOf send db),
        es ++ l.filterMap (bulkErrorOf send)) := by
  induction l generalizing rs es with
  | nil => simp
  | cons m t ih =>
    cases hm : send m with
    | ok r =>
      rw [List.foldl_cons]
      show List.foldl (bulkStep send db) (bulkStep send db (rs, es) m) t = _
      rw [bulkStep, hm]
      rw [ih]
      simp [bulkResultOf, bulkErrorOf, hm, List.filterMap_cons]
    | error e =>
      rw [List.foldl_cons]
      show List.foldl (bulkStep send db) (bulkStep send db (rs, es) m) t = _
      rw [bulkStep, hm]
      rw [ih]
      simp [bulkResultOf, bulkErrorOf, hm, List.filterMap_cons]

/-- C7: a bulk-send request some of whose sends fail still answers
HTTP 200 with `success: true`; every succeeding message contributes
exactly its one `results` entry and every failing message exactly its
one `errors` entry, in request order, so one failure never prevents the
remaining messages from being processed. -/
theorem sendBulk_collects_errors
    (send : BulkMsg → Except String WaApiResponse)
    (db : BulkMsg → Option String) (messages : List BulkMsg)
    (hfail : ∃ m ∈ messages, exceptIsError (send m) = true) :
    (sendBulkMessages send db messages).status = 200 ∧
    (sendBulkMessages send db messages).success = true ∧
    (sendBulkMessages send db messages).results =
      messages.filterMap (bulkResultOf send db) ∧
    (sendBulkMessages send db messages).errors =
      messages.filterMap (bulkErrorOf send) := by
  refine ⟨rfl, rfl, ?_, ?_⟩ <;>
    simp [sendBulkMessages, bulk_foldl_spec]

/-- Witness for C7: three messages with the middle send failing yield a
200 response whose `errors` holds exactly that failure and whose
`results` holds the two surrounding successes. -/
theorem sendBulk_collects_errors_witness :
    (∃ m ∈ bulkFixMessages, exceptIsError (sendFix m) = true) ∧
    ((sendBulkMessages sendFix dbFix bulkFixMessages).status = 200 ∧
      (sendBulkMessages sendFix dbFix bulkFixMessages).success = true ∧
      (sendBulkMessages sendFix dbFix bulkFixMessages).results =
        bulkFixMessages.filterMap (bulkResultOf sendFix dbFix) ∧
      (sendBulkMessages sendFix dbFix bulkFixMessages).errors =
        bulkFixMessages.filterMap (bulkErrorOf sendFix)) :=
  ⟨by decide,
    sendBulk_collects_errors sendFix dbFix bulkFixMessages (by decide)⟩

/-- C8: with the phone-number id or the access token missing from the
configuration, both copies of `sendTextMessage` fail immediately with
the explicit configuration error naming the missing WhatsApp
configuration, and perform no network request at all. -/
theorem sendTextMessage_config_error
    (net netM : ApiRequest → Except String WaApiResponse) (cfg : WaConfig)
    («to» message : String)
    (h : cfg.phoneNumberId = none ∨ cfg.accessToken = none) :
    sendTextMessageApp net cfg «to» message =
      (.error (.configError
        "WhatsApp configuration missing: phoneNumberId or accessToken"),
        []) ∧
    sendTextMessageModule netM cfg «to» message =
      (.error (.configError
        "WhatsApp configuration missing: phoneNumberId or accessToken"),
        []) := by
  rcases h with h | h <;>
    constructor <;>
      simp [sendTextMessageApp, sendTextMessageModule, jsFalsyStr, h]

/-- Witness for C8 at an entirely unset configuration: both copies
return the configuration error and an empty request log. -/
theorem sendTextMessage_config_error_witness :
    (cfgNone.phoneNumberId = none ∨ cfgNone.accessToken = none) ∧
    (sendTextMessageApp netFix cfgNone "whatsapp:+15551234567" "hi" =
      (.error (.configError
        "WhatsApp configuration missing: phoneNumberId or accessToken"),
        []) ∧
      sendTextMessageModule netFix cfgNone "whatsapp:+15551234567" "hi" =
      (.error (.configError
        "WhatsApp configuration missing: phoneNumberId or accessToken"),
        [])) :=
  ⟨Or.inl rfl,
    sendTextMessage_config_error netFix netFix cfgNone
      "whatsapp:+15551234567" "hi" (Or.inl rfl)⟩

/-- C9: the two copies of the outbound send logic are not extensionally
equal: on a destination containing '+', the entrypoint copy strips the
'+' while the shared-module copy keeps it, and the two copies target
different API version URL prefixes (v18.0 vs v22.0). -/
theorem send_copies_diverge :
    cleanPhoneNumberApp "whatsapp:+15551234567" ≠
      cleanPhoneNumberModule "whatsapp:+15551234567" ∧
    '+' ∈ "whatsapp:+15551234567".data ∧
    WHATSAPP_API_URL_app ≠ WHATSAPP_API_URL_module :=
  ⟨by decide, by decide, by decide⟩

end MetaWebhook
